import Mathlib

/-!
Shallow embedding of src/js/main.js (Mundi Synthetic dark-mode controller).

The script is an IIFE that
  1. looks up the toggle button by id, warning and returning if absent;
  2. defines apply(enabled), which toggles the dark-mode class on the
     document root, sets the aria-pressed attribute, writes the darkMode
     localStorage key, and sets the button glyph;
  3. resolves the initial state from localStorage, falling back to the
     prefers-color-scheme media query when the key is absent;
  4. attaches a click listener that reads the current aria-pressed
     attribute, inverts it, and calls apply.

The observable state of the page is modelled as a record; DOM and storage
reads and writes become field reads and functional updates.
-/

namespace Mundi

/-- Observable state touched by the script: presence of the dark-mode class
on the document root, the aria-pressed attribute of the button (absent or a
string), the button text content, the darkMode localStorage entry (absent
or a string), whether a click listener has been attached, and whether the
missing-button warning was logged. -/
structure State where
  docDark : Bool
  ariaPressed : Option String
  label : String
  storage : Option String
  listenerAttached : Bool
  warned : Bool
deriving DecidableEq, Repr

/-- apply(enabled) from main.js lines 45-54: classList.toggle with the
dark-mode class and the enabled flag, setAttribute of aria-pressed to
String(Boolean(enabled)), localStorage.setItem of darkMode to "1" or "0",
and textContent set to the sun glyph when enabled, the moon glyph when
disabled. -/
def apply (enabled : Bool) (s : State) : State :=
  { s with
    docDark := enabled
    ariaPressed := some (toString enabled)
    storage := some (if enabled then "1" else "0")
    label := if enabled then "☀️" else "🌙" }

/-- The IIFE body, lines 27-85: if the button is absent, warn and return
without doing anything else. Otherwise resolve the initial theme (a stored
value is compared to "1"; when no value is stored the prefers-dark signal
is used) and attach the click listener. The second component records the
argument passed to apply, or none when apply was never called. -/
def initTrace (btnPresent : Bool) (prefersDark : Bool) (s : State) :
    State × Option Bool :=
  if btnPresent then
    match s.storage with
    | some stored =>
        ({ apply (stored == "1") s with listenerAttached := true },
         some (stored == "1"))
    | none =>
        ({ apply prefersDark s with listenerAttached := true },
         some prefersDark)
  else
    ({ s with warned := true }, none)

/-- The click listener, lines 82-85: read the current aria-pressed
attribute, compare it to "true" (a missing attribute compares unequal),
and call apply with the negation. -/
def click (s : State) : State :=
  apply (!(s.ariaPressed == some "true")) s

/-- A page state before the script runs: light theme, no attribute, empty
label, empty storage, no listener, no warning. -/
def s0 : State :=
  { docDark := false
    ariaPressed := none
    label := ""
    storage := none
    listenerAttached := false
    warned := false }

/-! Theorems about the controller. -/

/-- C1: after apply(enabled) the document-root marker, the aria-pressed
attribute, the visible label and the persisted key all agree with enabled:
the marker is present iff enabled, the attribute is "true" iff enabled,
the label is the enabled-side glyph iff enabled, and the key is "1" iff
enabled; no call leaves only some of the four updated. -/
theorem apply_consistency (enabled : Bool) (s : State) :
    ((apply enabled s).docDark = true ↔ enabled = true) ∧
    ((apply enabled s).ariaPressed = some "true" ↔ enabled = true) ∧
    ((apply enabled s).label = "☀️" ↔ enabled = true) ∧
    ((apply enabled s).storage = some "1" ↔ enabled = true) ∧
    ((apply enabled s).ariaPressed = some "false" ↔ enabled = false) ∧
    ((apply enabled s).label = "🌙" ↔ enabled = false) ∧
    ((apply enabled s).storage = some "0" ↔ enabled = false) := by
  cases enabled <;> simp [apply] <;> decide

/-- C2: when the persisted key holds exactly "1", initialization calls
apply with true, yields the dark state with the listener attached, and the
result does not depend on the ambient system preference. -/
theorem init_stored_one_wins (pd pd' : Bool) (s : State)
    (h : s.storage = some "1") :
    (initTrace true pd s).2 = some true ∧
    (initTrace true pd s).1 = { apply true s with listenerAttached := true } ∧
    initTrace true pd s = initTrace true pd' s := by
  simp [initTrace, h]

/-- Witness for C2 at a concrete state with storage = some "1" and a
light-preferring system. -/
theorem init_stored_one_wins_witness :
    (initTrace true false { s0 with storage := some "1" }).2 = some true ∧
    (initTrace true false { s0 with storage := some "1" }).1 =
      { apply true { s0 with storage := some "1" } with
        listenerAttached := true } ∧
    initTrace true false { s0 with storage := some "1" } =
      initTrace true true { s0 with storage := some "1" } :=
  init_stored_one_wins false true { s0 with storage := some "1" } rfl

/-- C3: when the persisted key is absent and the system signal reports
prefers-dark, initialization calls apply with true and yields the dark
state with the listener attached. -/
theorem init_fallback_prefers_dark (s : State) (h : s.storage = none) :
    (initTrace true true s).2 = some true ∧
    (initTrace true true s).1 =
      { apply true s with listenerAttached := true } := by
  simp [initTrace, h]

/-- Witness for C3 at the empty initial state. -/
theorem init_fallback_prefers_dark_witness :
    (initTrace true true s0).2 = some true ∧
    (initTrace true true s0).1 =
      { apply true s0 with listenerAttached := true } :=
  init_fallback_prefers_dark s0 rfl

/-- C4 counterexample: starting from an absent key and a dark-preferring
system, initialization leaves the key written (apply always writes), so
the claim that storage is left unset is false at this input. -/
theorem init_fallback_writes_storage_cex :
    ¬ ((initTrace true true s0).1.storage = none) := by
  decide

/-- C4 amended: when the persisted key is absent, initialization writes
the resolved system value to the key, because apply itself performs the
storage write; storage is therefore set, not left unset, after a
fallback initialization. -/
theorem init_fallback_writes_storage (pd : Bool) (s : State)
    (h : s.storage = none) :
    (initTrace true pd s).1.storage = some (if pd then "1" else "0") := by
  cases pd <;> simp [initTrace, apply, h]

/-- Witness for the amended C4 at the empty initial state. -/
theorem init_fallback_writes_storage_witness :
    (initTrace true true s0).1.storage = some (if true then "1" else "0") :=
  init_fallback_writes_storage true s0 rfl

/-- C5: when the aria-pressed attribute currently reads "true", one click
produces apply(false): the attribute becomes "false", the label the
disabled-side glyph, and the key "0"; moreover the handler always applies
the negation of the attribute value read at activation time. -/
theorem click_inverts_pressed (s : State) (h : s.ariaPressed = some "true") :
    click s = apply false s ∧
    (click s).ariaPressed = some "false" ∧
    (click s).label = "🌙" ∧
    (click s).storage = some "0" ∧
    (∀ t : State, click t = apply (!(t.ariaPressed == some "true")) t) := by
  refine ⟨?_, ?_, ?_, ?_, fun t => rfl⟩ <;> simp [click, apply, h] <;> rfl

/-- Witness for C5 at a concrete pressed state. -/
theorem click_inverts_pressed_witness :
    click { s0 with ariaPressed := some "true" } =
      apply false { s0 with ariaPressed := some "true" } ∧
    (click { s0 with ariaPressed := some "true" }).ariaPressed =
      some "false" ∧
    (click { s0 with ariaPressed := some "true" }).label = "🌙" ∧
    (click { s0 with ariaPressed := some "true" }).storage = some "0" ∧
    (∀ t : State, click t = apply (!(t.ariaPressed == some "true")) t) :=
  click_inverts_pressed { s0 with ariaPressed := some "true" } rfl

/-- C6: with no matching control element, initialization only logs the
warning: no exception (the function returns normally), no listener
attached, document marker, attribute, label and storage untouched, and
apply never called. -/
theorem init_missing_control (pd : Bool) (s : State) :
    (initTrace false pd s).1 = { s with warned := true } ∧
    (initTrace false pd s).2 = none ∧
    (initTrace false pd s).1.docDark = s.docDark ∧
    (initTrace false pd s).1.ariaPressed = s.ariaPressed ∧
    (initTrace false pd s).1.label = s.label ∧
    (initTrace false pd s).1.storage = s.storage ∧
    (initTrace false pd s).1.listenerAttached = s.listenerAttached := by
  simp [initTrace]

/-- C7: apply is idempotent: applying the same flag twice yields the same
observable state as applying it once. -/
theorem apply_idempotent (b : Bool) (s : State) :
    apply b (apply b s) = apply b s := by
  simp [apply]

/-- C8: every apply writes the key, never deletes it: apply(true) leaves
exactly "1", apply(false) leaves exactly "0", and after any apply the key
is present. -/
theorem apply_storage_roundtrip (b : Bool) (s : State) :
    (apply true s).storage = some "1" ∧
    (apply false s).storage = some "0" ∧
    (apply b s).storage.isSome = true := by
  cases b <;> simp [apply]

/-- C9: at initialization any present stored token other than exactly "1"
decodes to false, so apply is called with false; only the exact token "1"
yields apply(true). -/
theorem init_stored_other_token_false (pd : Bool) (s : State) (v : String)
    (h : s.storage = some v) (hv : v ≠ "1") :
    (initTrace true pd s).2 = some false ∧
    (initTrace true pd s).1 =
      { apply false s with listenerAttached := true } := by
  have hb : (v == "1") = false := beq_eq_false_iff_ne.mpr hv
  simp [initTrace, h, hb]

/-- Witness for C9 with the stored token "true". -/
theorem init_stored_other_token_false_witness :
    (initTrace true true { s0 with storage := some "true" }).2 =
      some false ∧
    (initTrace true true { s0 with storage := some "true" }).1 =
      { apply false { s0 with storage := some "true" } with
        listenerAttached := true } :=
  init_stored_other_token_false true { s0 with storage := some "true" }
    "true" rfl (by decide)

/-- C10: on a click, any attribute value other than exactly "true"
(including an absent attribute or "mixed") is treated as not pressed, so
the handler calls apply(true); and apply always normalizes the attribute
back to exactly "true" or "false". -/
theorem click_non_true_enables (s : State)
    (h : s.ariaPressed ≠ some "true") :
    click s = apply true s ∧
    (click s).ariaPressed = some "true" ∧
    (∀ b : Bool, ∀ t : State,
      (apply b t).ariaPressed = some "true" ∨
      (apply b t).ariaPressed = some "false") := by
  have hb : (s.ariaPressed == some "true") = false := beq_eq_false_iff_ne.mpr h
  refine ⟨?_, ?_, fun b t => ?_⟩
  · simp [click, hb]
  · simp [click, hb, apply]; rfl
  · cases b
    · exact Or.inr (by simp [apply]; rfl)
    · exact Or.inl (by simp [apply]; rfl)

/-- Witness for C10 at a state whose attribute is "mixed". -/
theorem click_non_true_enables_witness :
    click { s0 with ariaPressed := some "mixed" } =
      apply true { s0 with ariaPressed := some "mixed" } ∧
    (click { s0 with ariaPressed := some "mixed" }).ariaPressed =
      some "true" ∧
    (∀ b : Bool, ∀ t : State,
      (apply b t).ariaPressed = some "true" ∨
      (apply b t).ariaPressed = some "false") :=
  click_non_true_enables { s0 with ariaPressed := some "mixed" } (by decide)

end Mundi
